import Mathlib

/-!
Shallow embedding of the jira-clone backend's record-store state and the
workspace/project route handlers, translated from
`src/features/workspaces/server/route.ts`,
`src/features/projects/server/route.ts` and the `getMember` helper
(`src/features/members/utils`).

Modelling conventions:
  * The external relational store is a `State` of four lists (workspaces,
    members, projects, tasks), mirroring the four tables declared in
    `src/config/supabase.ts`.
  * Supabase's `.single()` errors unless exactly one row matches; this is
    `single?`.
  * Backend failures of individual database calls are injected as explicit
    `Bool` flags (`dbErr`, `insertErr`, ...); the error messages the real
    backend would produce are opaque strings, rendered here as fixed
    placeholders.
  * Timestamps are abstract `Nat` instants (ISO-8601 strings compare in
    timestamp order); db-managed columns not read by the embedded handlers
    (`created_at`/`updated_at` of non-task rows) are omitted.
  * Blob-store interactions (image upload, public-URL decoration, image
    deletion) live outside the record store and are not part of `State`;
    an uploaded image is represented by the storage key the handler would
    write into the row.
-/

namespace JiraClone

/-- Task status enumeration from `src/features/tasks/types`
(BACKLOG, TODO, IN_PROGRESS, IN_REVIEW, DONE). -/
inductive TaskStatus where
  | backlog
  | todo
  | inProgress
  | inReview
  | done
deriving DecidableEq

/-- Member role enumeration from `src/features/members/types`
(MEMBER, ADMIN). -/
inductive MemberRole where
  | member
  | admin
deriving DecidableEq

/-- Row of the `members` table (`src/config/supabase.ts`). -/
structure Member where
  id : String
  user_id : String
  workspace_id : String
  role : MemberRole
deriving DecidableEq

/-- Row of the `workspaces` table (`src/config/supabase.ts`). -/
structure Workspace where
  id : String
  name : String
  user_id : String
  image_id : Option String
  invite_code : String
deriving DecidableEq

/-- Row of the `projects` table (`src/config/supabase.ts`). -/
structure Project where
  id : String
  name : String
  workspace_id : String
  image_id : Option String
deriving DecidableEq

/-- Row of the `tasks` table (`src/config/supabase.ts`). -/
structure Task where
  id : String
  name : String
  status : TaskStatus
  workspace_id : String
  project_id : String
  assignee_id : String
  due_date : Option Nat
  created_at : Nat
  position : Nat
deriving DecidableEq

/-- The record store: the four tables of the data model. -/
structure State where
  workspaces : List Workspace
  members : List Member
  projects : List Project
  tasks : List Task
deriving DecidableEq

/-- JSON response envelope: success is `{data}` (HTTP 200), failure is
`{error: msg}` with an HTTP status. -/
inductive Resp (α : Type) where
  | ok (data : α)
  | err (status : Nat) (msg : String)
deriving DecidableEq

def Resp.isErr {α : Type} : Resp α → Bool
  | .ok _ => false
  | .err _ _ => true

/-- Supabase `.single()`: succeeds iff the query returned exactly one row. -/
def single? {α : Type} : List α → Option α
  | [a] => some a
  | _ => none

/-- The member rows matching `.eq('workspace_id', wid).eq('user_id', uid)`. -/
def memberFor (s : State) (wid uid : String) : List Member :=
  s.members.filter (fun m => m.workspace_id == wid && m.user_id == uid)

/-- `getMember` from `src/features/members/utils` (src/unnamed/part_000):
runs the single-row member query and returns `null` on ANY error — whether
the error is "no (or several) matching rows" or a backend failure
(injected as `dbErr`). -/
def getMember (dbErr : Bool) (s : State) (wid uid : String) : Option Member :=
  if dbErr then none
  else single? (memberFor s wid uid)

/-- The workspace rows matching `.eq('id', wid)`. -/
def workspacesFor (s : State) (wid : String) : List Workspace :=
  s.workspaces.filter (fun w => w.id == wid)

/-- The project rows matching `.eq('id', pid)`. -/
def projectsFor (s : State) (pid : String) : List Project :=
  s.projects.filter (fun p => p.id == pid)

/-! ### Analytics aggregator (route.ts lines 409-549 / 295-445)

Each of the ten count queries filters the `tasks` table by a scope column
(`workspace_id` or `project_id`), optional predicate columns, and a
`created_at` month window (`.gte(start).lte(end)`); the month boundaries
(`startOfMonth`/`endOfMonth`/`subMonths` of date-fns) are external and
enter the model as abstract instants. -/

/-- `.gte('created_at', a).lte('created_at', b)`. -/
def inWin (a b : Nat) (t : Task) : Bool :=
  a ≤ t.created_at && t.created_at ≤ b

/-- `.neq('status', TaskStatus.DONE)`. -/
def incompletePred (t : Task) : Bool :=
  !(t.status == TaskStatus.done)

/-- `.lt('due_date', now)`: a SQL comparison against a NULL `due_date` is
not true, so rows without a due date never match. -/
def dueBefore (now : Nat) (t : Task) : Bool :=
  match t.due_date with
  | some d => d < now
  | none => false

/-- Predicate of the plain month-count query. -/
def allQ (scope : Task → Bool) (a b : Nat) (t : Task) : Bool :=
  scope t && inWin a b t

/-- Predicate of the assigned-count query (`.eq('assignee_id', member.id)`). -/
def assignedQ (scope : Task → Bool) (mid : String) (a b : Nat) (t : Task) : Bool :=
  scope t && t.assignee_id == mid && inWin a b t

/-- Predicate of the incomplete-count query. -/
def incompleteQ (scope : Task → Bool) (a b : Nat) (t : Task) : Bool :=
  scope t && incompletePred t && inWin a b t

/-- Predicate of the completed-count query (`.eq('status', TaskStatus.DONE)`). -/
def completedQ (scope : Task → Bool) (a b : Nat) (t : Task) : Bool :=
  scope t && t.status == TaskStatus.done && inWin a b t

/-- Predicate of the overdue-count query
(`.neq('status', DONE).lt('due_date', now)`). -/
def overdueQ (scope : Task → Bool) (now a b : Nat) (t : Task) : Bool :=
  scope t && incompletePred t && dueBefore now t && inWin a b t

/-- The ten raw query results. Supabase's `count` is `number | null`, hence
`Option Nat`: `none` models an absent count. -/
structure RawCounts where
  thisTask : Option Nat
  lastTask : Option Nat
  thisAssigned : Option Nat
  lastAssigned : Option Nat
  thisIncomplete : Option Nat
  lastIncomplete : Option Nat
  thisCompleted : Option Nat
  lastCompleted : Option Nat
  thisOverdue : Option Nat
  lastOverdue : Option Nat
deriving DecidableEq

/-- The analytics payload returned under `data`. -/
structure AnalyticsData where
  taskCount : Nat
  taskDifference : Int
  assignedTaskCount : Nat
  assignedTaskDifference : Int
  completedTaskCount : Nat
  completedTaskDifference : Int
  incompleteTaskCount : Nat
  incompleteTaskDifference : Int
  overdueTaskCount : Nat
  overdueTaskDifference : Int
deriving DecidableEq

/-- The arithmetic between the queries and the response (route.ts
lines 446-447, 467-468, 488-489, 509-510, 532-533): each count is
`thisMonthCount || 0` and each difference is `count - (lastMonthCount || 0)`. -/
def shapeAnalytics (r : RawCounts) : AnalyticsData :=
  let taskCount := r.thisTask.getD 0
  let assignedTaskCount := r.thisAssigned.getD 0
  let incompleteTaskCount := r.thisIncomplete.getD 0
  let completedTaskCount := r.thisCompleted.getD 0
  let overdueTaskCount := r.thisOverdue.getD 0
  { taskCount := taskCount
    taskDifference := (taskCount : Int) - (r.lastTask.getD 0 : Int)
    assignedTaskCount := assignedTaskCount
    assignedTaskDifference := (assignedTaskCount : Int) - (r.lastAssigned.getD 0 : Int)
    completedTaskCount := completedTaskCount
    completedTaskDifference := (completedTaskCount : Int) - (r.lastCompleted.getD 0 : Int)
    incompleteTaskCount := incompleteTaskCount
    incompleteTaskDifference := (incompleteTaskCount : Int) - (r.lastIncomplete.getD 0 : Int)
    overdueTaskCount := overdueTaskCount
    overdueTaskDifference := (overdueTaskCount : Int) - (r.lastOverdue.getD 0 : Int) }

/-- The ten count queries run against the task table, all succeeding:
`now` is the instant of the request, `tS td the current-month window
`[tS, tE]`, `lS lE` the previous-month window. -/
def rawCountsOf (tasks : List Task) (scope : Task → Bool) (mid : String)
    (now tS tE lS lE : Nat) : RawCounts :=
  { thisTask := some (tasks.countP (allQ scope tS tE))
    lastTask := some (tasks.countP (allQ scope lS lE))
    thisAssigned := some (tasks.countP (assignedQ scope mid tS tE))
    lastAssigned := some (tasks.countP (assignedQ scope mid lS lE))
    thisIncomplete := some (tasks.countP (incompleteQ scope tS tE))
    lastIncomplete := some (tasks.countP (incompleteQ scope lS lE))
    thisCompleted := some (tasks.countP (completedQ scope tS tE))
    lastCompleted := some (tasks.countP (completedQ scope lS lE))
    thisOverdue := some (tasks.countP (overdueQ scope now tS tE))
    lastOverdue := some (tasks.countP (overdueQ scope now lS lE)) }

/-! ### Workspace route handlers (`src/features/workspaces/server/route.ts`)

Each handler is a function of the store state plus the request data; a
mutating handler returns the response together with the new state. -/

/-- `GET /:workspaceId` (lines 128-173): membership gate, then single-row
workspace fetch. (Public-URL decoration of `image_id` happens in the
external blob store and is outside the record-store model.) -/
def getWorkspaceHandler (dbErr : Bool) (s : State) (uid wid : String) : Resp Workspace :=
  match getMember dbErr s wid uid with
  | none => .err 401 "Unauthorized."
  | some _ =>
    match single? (workspacesFor s wid) with
    | none => .err 500 "workspace query failed"
    | some w => .ok w

/-- The `select('id, name')` projection of the info endpoint. -/
structure WorkspaceInfo where
  id : String
  name : String
deriving DecidableEq

/-- `GET /:workspaceId/info` (lines 174-191): fetches `id, name` of the
workspace. The source performs NO membership lookup here — any
authenticated caller reaches the query. -/
def getWorkspaceInfoHandler (s : State) (wid : String) : Resp WorkspaceInfo :=
  match single? (workspacesFor s wid) with
  | none => .err 500 "workspace query failed"
  | some w => .ok { id := w.id, name := w.name }

/-- The row update performed by `PATCH /:workspaceId`: `name` comes from
the validated form when present, and `image_id` is written only when a new
image was uploaded (fields that are `undefined` in the update object are
not sent to the store). -/
def applyPatch (nm : Option String) (img : Option String) (w : Workspace) : Workspace :=
  { w with
    name := nm.getD w.name
    image_id := match img with | some i => some i | none => w.image_id }

/-- `PATCH /:workspaceId` (lines 192-262): 401 unless the caller's member
row exists AND has role admin; otherwise updates the matching workspace
row and returns it. `img` is the storage key of a freshly uploaded image,
`none` when the form carried no file. -/
def patchWorkspaceHandler (dbErr : Bool) (s : State) (uid wid : String)
    (nm img : Option String) : Resp Workspace × State :=
  match getMember dbErr s wid uid with
  | none => (.err 401 "Unauthorized.", s)
  | some m =>
    if m.role == MemberRole.admin then
      let ws := s.workspaces.map (fun w => if w.id == wid then applyPatch nm img w else w)
      match single? (ws.filter (fun w => w.id == wid)) with
      | none => (.err 500 "workspace update failed", { s with workspaces := ws })
      | some w => (.ok w, { s with workspaces := ws })
    else (.err 401 "Unauthorized.", s)

/-- `DELETE /:workspaceId` (lines 263-322): 401 unless admin; deletes the
workspace row, and the store's foreign keys cascade to members, projects
and tasks. (Blob deletions are outside the record store.) -/
def deleteWorkspaceHandler (dbErr : Bool) (s : State) (uid wid : String) :
    Resp String × State :=
  match getMember dbErr s wid uid with
  | none => (.err 401 "Unauthorized.", s)
  | some m =>
    if m.role == MemberRole.admin then
      (.ok wid,
        { workspaces := s.workspaces.filter (fun w => !(w.id == wid))
          members := s.members.filter (fun x => !(x.workspace_id == wid))
          projects := s.projects.filter (fun p => !(p.workspace_id == wid))
          tasks := s.tasks.filter (fun t => !(t.workspace_id == wid)) })
    else (.err 401 "Unauthorized.", s)

/-- `POST /:workspaceId/resetInviteCode` (lines 323-353): 401 unless
admin; writes a fresh random code (`generateInviteCode(6)`, injected as
`newCode`) into `invite_code` of the matching row and returns the row. -/
def resetInviteCodeHandler (dbErr : Bool) (s : State) (uid wid newCode : String) :
    Resp Workspace × State :=
  match getMember dbErr s wid uid with
  | none => (.err 401 "Unauthorized.", s)
  | some m =>
    if m.role == MemberRole.admin then
      let ws := s.workspaces.map
        (fun w => if w.id == wid then { w with invite_code := newCode } else w)
      match single? (ws.filter (fun w => w.id == wid)) with
      | none => (.err 500 "workspace update failed", { s with workspaces := ws })
      | some w => (.ok w, { s with workspaces := ws })
    else (.err 401 "Unauthorized.", s)

/-- `POST /:workspaceId/join` (lines 354-408): "Already a member." if the
caller's member row exists; then fetch the workspace, compare its invite
code with the submitted one, and only after the equality check insert a
member row with role MEMBER. `insertErr` injects a backend failure of the
insert; `mid` is the store-generated id of the new row. -/
def joinHandler (dbErr insertErr : Bool) (s : State) (uid wid code mid : String) :
    Resp Workspace × State :=
  match getMember dbErr s wid uid with
  | some _ => (.err 400 "Already a member.", s)
  | none =>
    match single? (workspacesFor s wid) with
    | none => (.err 500 "workspace query failed", s)
    | some w =>
      if !(w.invite_code == code) then (.err 400 "Invalid invite code.", s)
      else if insertErr then (.err 500 "member insert failed", s)
      else (.ok w,
        { s with members := s.members ++ [{ id := mid, user_id := uid, workspace_id := wid, role := MemberRole.member }] })

/-- `POST /` (lines 70-127): inserts the workspace row, then inserts the
creator's admin member row; each insert can fail independently
(`wsInsertErr`, `memberInsertErr`), and a failure after the workspace
insert leaves the workspace row in place. `wsId`/`mid` are store-generated
ids, `inv` the generated invite code, `img` the uploaded image key. -/
def createWorkspaceHandler (wsInsertErr memberInsertErr : Bool) (s : State)
    (uid nm : String) (img : Option String) (wsId inv mid : String) :
    Resp Workspace × State :=
  if wsInsertErr then (.err 500 "workspace insert failed", s)
  else
    let w : Workspace := { id := wsId, name := nm, user_id := uid, image_id := img, invite_code := inv }
    let s1 : State := { s with workspaces := s.workspaces ++ [w] }
    if memberInsertErr then (.err 500 "member insert failed", s1)
    else (.ok w,
      { s1 with members := s1.members ++ [{ id := mid, user_id := uid, workspace_id := wsId, role := MemberRole.admin }] })

/-- `GET /:workspaceId/analytics` (lines 409-549): membership gate, then
the ten count queries scoped by `workspace_id`, with the assigned-count
queries keyed on the caller's member-row id. -/
def workspaceAnalyticsHandler (dbErr : Bool) (s : State) (uid wid : String)
    (now tS tE lS lE : Nat) : Resp AnalyticsData :=
  match getMember dbErr s wid uid with
  | none => .err 401 "Unauthorized."
  | some m =>
    .ok (shapeAnalytics
      (rawCountsOf s.tasks (fun t => t.workspace_id == wid) m.id now tS tE lS lE))

/-- `GET /:projectId/analytics` of
`src/features/projects/server/route.ts` (lines 295-445): fetch the
project, gate on membership in its owning workspace, then the same ten
count queries scoped by `project_id`. -/
def projectAnalyticsHandler (dbErr : Bool) (s : State) (uid pid : String)
    (now tS tE lS lE : Nat) : Resp AnalyticsData :=
  match single? (projectsFor s pid) with
  | none => .err 500 "project query failed"
  | some p =>
    match getMember dbErr s p.workspace_id uid with
    | none => .err 401 "Unauthorized."
    | some m =>
      .ok (shapeAnalytics
        (rawCountsOf s.tasks (fun t => t.project_id == pid) m.id now tS tE lS lE))

/-! ### Concrete fixtures used by counterexamples and witnesses -/

/-- A workspace with invite code "AB12CD" (the spec's worked example). -/
def wsOne : Workspace :=
  { id := "w1", name := "W One", user_id := "owner", image_id := none, invite_code := "AB12CD" }

/-- The creator's admin member row for `wsOne`. -/
def ownerAdmin : Member :=
  { id := "m0", user_id := "owner", workspace_id := "w1", role := MemberRole.admin }

/-- Store holding `wsOne` with its single admin member; the user "alice"
has no member row anywhere. -/
def baseState : State :=
  { workspaces := [wsOne], members := [ownerAdmin], projects := [], tasks := [] }

/-- A plain (non-admin) member row for the user "bob" in `wsOne`. -/
def bobMember : Member :=
  { id := "m1", user_id := "bob", workspace_id := "w1", role := MemberRole.member }

/-- `baseState` with "bob" as a role=member member of `wsOne`. -/
def stateBob : State :=
  { baseState with members := [ownerAdmin, bobMember] }

/-- The member row created when "alice" joins `wsOne`. -/
def aliceMember : Member :=
  { id := "m9", user_id := "alice", workspace_id := "w1", role := MemberRole.member }

/-- A task already marked done whose due date has passed. -/
def doneTask : Task :=
  { id := "t1", name := "T", status := TaskStatus.done, workspace_id := "w1",
    project_id := "p1", assignee_id := "m0", due_date := some 5, created_at := 10, position := 1 }

/-! ### Helper lemmas -/

/-- `.single()` success returns a row of the query result. -/
theorem single?_eq_some_mem {α : Type} {l : List α} {a : α}
    (h : single? l = some a) : a ∈ l := by
  match l with
  | [] => simp [single?] at h
  | [x] =>
    simp [single?] at h
    simp [h]
  | x :: y :: rest => simp [single?] at h

/-- The overdue-query predicate is the incomplete-query predicate
strengthened by the past-due-date condition. -/
theorem overdueQ_eq_incompleteQ_and_due (scope : Task → Bool) (now a b : Nat) (t : Task) :
    overdueQ scope now a b t = (incompleteQ scope a b t && dueBefore now t) := by
  unfold overdueQ incompleteQ
  cases scope t <;> cases incompletePred t <;> cases dueBefore now t <;> cases inWin a b t <;> rfl

/-- Row-count monotonicity: the overdue query never matches more rows than
the incomplete query over the same task set and month window. -/
theorem countP_overdue_le_incomplete (tasks : List Task) (scope : Task → Bool) (now a b : Nat) :
    tasks.countP (overdueQ scope now a b) ≤ tasks.countP (incompleteQ scope a b) := by
  apply List.countP_mono_left
  intro t _ hp
  rw [overdueQ_eq_incompleteQ_and_due] at hp
  exact (Bool.and_eq_true .. ▸ hp).1

/-! ### Claim theorems -/

/-- Claim C2 (confirmed): every analytics response is `shapeAnalytics` of
some raw query results, and for each of the five predicates the returned
difference is the current-month count minus the previous-month count,
where an absent (null) count defaults to 0; the difference is an integer
and can be negative. -/
theorem analytics_difference_formula :
    (∀ r : RawCounts,
      (shapeAnalytics r).taskCount = r.thisTask.getD 0 ∧
      (shapeAnalytics r).taskDifference =
        ((shapeAnalytics r).taskCount : Int) - (r.lastTask.getD 0 : Int) ∧
      (shapeAnalytics r).assignedTaskCount = r.thisAssigned.getD 0 ∧
      (shapeAnalytics r).assignedTaskDifference =
        ((shapeAnalytics r).assignedTaskCount : Int) - (r.lastAssigned.getD 0 : Int) ∧
      (shapeAnalytics r).completedTaskCount = r.thisCompleted.getD 0 ∧
      (shapeAnalytics r).completedTaskDifference =
        ((shapeAnalytics r).completedTaskCount : Int) - (r.lastCompleted.getD 0 : Int) ∧
      (shapeAnalytics r).incompleteTaskCount = r.thisIncomplete.getD 0 ∧
      (shapeAnalytics r).incompleteTaskDifference =
        ((shapeAnalytics r).incompleteTaskCount : Int) - (r.lastIncomplete.getD 0 : Int) ∧
      (shapeAnalytics r).overdueTaskCount = r.thisOverdue.getD 0 ∧
      (shapeAnalytics r).overdueTaskDifference =
        ((shapeAnalytics r).overdueTaskCount : Int) - (r.lastOverdue.getD 0 : Int)) ∧
    (∃ r : RawCounts, (shapeAnalytics r).taskDifference < 0) ∧
    (∀ (dbErr : Bool) (s : State) (uid wid : String) (now tS tE lS lE : Nat),
      workspaceAnalyticsHandler dbErr s uid wid now tS tE lS lE = Resp.err 401 "Unauthorized." ∨
      ∃ r, workspaceAnalyticsHandler dbErr s uid wid now tS tE lS lE = Resp.ok (shapeAnalytics r)) ∧
    (∀ (dbErr : Bool) (s : State) (uid pid : String) (now tS tE lS lE : Nat),
      projectAnalyticsHandler dbErr s uid pid now tS tE lS lE = Resp.err 500 "project query failed" ∨
      projectAnalyticsHandler dbErr s uid pid now tS tE lS lE = Resp.err 401 "Unauthorized." ∨
      ∃ r, projectAnalyticsHandler dbErr s uid pid now tS tE lS lE = Resp.ok (shapeAnalytics r)) := by
  refine ⟨?_, ?_, ?_, ?_⟩
  · intro r
    exact ⟨rfl, rfl, rfl, rfl, rfl, rfl, rfl, rfl, rfl, rfl⟩
  · exact ⟨⟨some 0, some 1, some 0, some 0, some 0, some 0, some 0, some 0, some 0, some 0⟩,
      by decide⟩
  · intro dbErr s uid wid now tS tE lS lE
    unfold workspaceAnalyticsHandler
    cases getMember dbErr s wid uid with
    | none => exact Or.inl rfl
    | some m => exact Or.inr ⟨_, rfl⟩
  · intro dbErr s uid pid now tS tE lS lE
    unfold projectAnalyticsHandler
    cases single? (projectsFor s pid) with
    | none => exact Or.inl rfl
    | some p =>
      dsimp only
      cases getMember dbErr s p.workspace_id uid with
      | none => exact Or.inr (Or.inl rfl)
      | some m => exact Or.inr (Or.inr ⟨_, rfl⟩)

/-- Claim C6 (confirmed): every task matched by the overdue query is
matched by the incomplete query (the overdue predicate is the incomplete
predicate plus due-date-before-now), so for every scope and month window
the overdue count never exceeds the incomplete count, in particular in the
aggregated analytics payload. -/
theorem overdue_count_le_incomplete_count :
    (∀ (scope : Task → Bool) (now a b : Nat) (t : Task),
      overdueQ scope now a b t = (incompleteQ scope a b t && dueBefore now t)) ∧
    (∀ (tasks : List Task) (scope : Task → Bool) (now a b : Nat),
      tasks.countP (overdueQ scope now a b) ≤ tasks.countP (incompleteQ scope a b)) ∧
    (∀ (tasks : List Task) (scope : Task → Bool) (mid : String) (now tS tE lS lE : Nat),
      (shapeAnalytics (rawCountsOf tasks scope mid now tS tE lS lE)).overdueTaskCount ≤
        (shapeAnalytics (rawCountsOf tasks scope mid now tS tE lS lE)).incompleteTaskCount) := by
  refine ⟨overdueQ_eq_incompleteQ_and_due, countP_overdue_le_incomplete, ?_⟩
  intro tasks scope mid now tS tE lS lE
  exact countP_overdue_le_incomplete tasks scope now tS tE

/-- Claim C7 (confirmed): a task with status done that lies in the scope
and the month window is matched by the completed query and is never
matched by the overdue query, even when its due date is strictly before
now — the not-done predicate takes precedence. -/
theorem done_task_counts_completed_not_overdue (scope : Task → Bool) (now a b : Nat) (t : Task)
    (hs : t.status = TaskStatus.done) (hsc : scope t = true) (hw : inWin a b t = true) :
    completedQ scope a b t = true ∧ overdueQ scope now a b t = false := by
  unfold completedQ overdueQ incompletePred
  rw [hs]
  simp [hsc, hw]

/-- Witness for C7: `doneTask` (status done, due date 5, now 6, window
`[10, 20]` containing its creation instant 10) is counted as completed and
not as overdue. -/
theorem done_task_counts_completed_not_overdue_w :
    completedQ (fun t => t.workspace_id == "w1") 10 20 doneTask = true ∧
      overdueQ (fun t => t.workspace_id == "w1") 6 10 20 doneTask = false :=
  done_task_counts_completed_not_overdue (fun t => t.workspace_id == "w1") 6 10 20 doneTask
    rfl (by decide) (by decide)

/-- Claim C1 counterexample: in `baseState` the caller "alice" has no
member row for workspace "w1", yet `GET /workspaces/w1/info` returns the
workspace's id and name, not 401 — the info handler performs no membership
lookup at all (it does not even receive the caller's identity). -/
theorem info_endpoint_no_membership_cex :
    memberFor baseState "w1" "alice" = [] ∧
    getWorkspaceInfoHandler baseState "w1" = Resp.ok { id := "w1", name := "W One" } ∧
    getWorkspaceInfoHandler baseState "w1" ≠ Resp.err 401 "Unauthorized." := by
  decide

/-- Claim C1 amended: every membership-gated workspace-scoped endpoint
(GET /:workspaceId, PATCH, DELETE, resetInviteCode, analytics) performs a
membership lookup and returns 401 "Unauthorized." without touching the
store when no member row exists for (caller, workspaceId); the exception
is GET /:workspaceId/info, which performs no membership lookup and returns
the workspace's id and name to any authenticated caller. -/
theorem workspace_membership_gate_401 (s : State) (uid wid : String)
    (h : memberFor s wid uid = []) :
    getWorkspaceHandler false s uid wid = Resp.err 401 "Unauthorized." ∧
    (∀ nm img, patchWorkspaceHandler false s uid wid nm img = (Resp.err 401 "Unauthorized.", s)) ∧
    deleteWorkspaceHandler false s uid wid = (Resp.err 401 "Unauthorized.", s) ∧
    (∀ c, resetInviteCodeHandler false s uid wid c = (Resp.err 401 "Unauthorized.", s)) ∧
    (∀ now tS tE lS lE,
      workspaceAnalyticsHandler false s uid wid now tS tE lS lE = Resp.err 401 "Unauthorized.") ∧
    (∀ w, single? (workspacesFor s wid) = some w →
      getWorkspaceInfoHandler s wid = Resp.ok { id := w.id, name := w.name }) := by
  have hm : getMember false s wid uid = none := by
    simp [getMember, h, single?]
  refine ⟨?_, ?_, ?_, ?_, ?_, ?_⟩
  · simp [getWorkspaceHandler, hm]
  · intro nm img
    simp [patchWorkspaceHandler, hm]
  · simp [deleteWorkspaceHandler, hm]
  · intro c
    simp [resetInviteCodeHandler, hm]
  · intro now tS tE lS lE
    simp [workspaceAnalyticsHandler, hm]
  · intro w hw
    simp [getWorkspaceInfoHandler, hw]

/-- Witness for C1 (amended): the non-member "alice" gets 401 from
`GET /workspaces/w1` on `baseState`. -/
theorem workspace_membership_gate_401_w :
    getWorkspaceHandler false baseState "alice" "w1" = Resp.err 401 "Unauthorized." :=
  (workspace_membership_gate_401 baseState "alice" "w1" (by decide)).1

/-- Claim C5 (confirmed): PATCH /:workspaceId, DELETE /:workspaceId and
POST /:workspaceId/resetInviteCode return 401 "Unauthorized." and leave
the store untouched whenever the caller has no admin member row for the
workspace — whether the row is absent or has role member. -/
theorem admin_only_mutations_gate (s : State) (uid wid : String)
    (h : ∀ m ∈ memberFor s wid uid, m.role ≠ MemberRole.admin) :
    (∀ nm img, patchWorkspaceHandler false s uid wid nm img = (Resp.err 401 "Unauthorized.", s)) ∧
    deleteWorkspaceHandler false s uid wid = (Resp.err 401 "Unauthorized.", s) ∧
    (∀ c, resetInviteCodeHandler false s uid wid c = (Resp.err 401 "Unauthorized.", s)) := by
  cases hg : getMember false s wid uid with
  | none =>
    refine ⟨?_, ?_, ?_⟩ <;> intros <;>
      simp [patchWorkspaceHandler, deleteWorkspaceHandler, resetInviteCodeHandler, hg]
  | some m =>
    have hmem : m ∈ memberFor s wid uid := by
      apply single?_eq_some_mem
      simpa [getMember] using hg
    have hrole : (m.role == MemberRole.admin) = false := by
      simp [h m hmem]
    refine ⟨?_, ?_, ?_⟩ <;> intros <;>
      simp [patchWorkspaceHandler, deleteWorkspaceHandler, resetInviteCodeHandler, hg, hrole]

/-- Witness for C5: "bob" is a member of `wsOne` with role member, and his
DELETE attempt answers 401 and leaves the store unchanged. -/
theorem admin_only_mutations_gate_w :
    deleteWorkspaceHandler false stateBob "bob" "w1" = (Resp.err 401 "Unauthorized.", stateBob) :=
  (admin_only_mutations_gate stateBob "bob" "w1" (by decide)).2.1

/-- The duplicate member row the join handler inserts for "bob" when a
backend failure of the membership lookup hides his existing row. -/
def bobDup : Member :=
  { id := "m9", user_id := "bob", workspace_id := "w1", role := MemberRole.member }

/-- Claim C9 counterexample: not every handler that calls `getMember`
answers 401 when the membership lookup fails for backend reasons. In
POST /:workspaceId/join a null `getMember` means "not a member": with the
lookup failing (`dbErr = true`), the existing member "bob" submitting the
correct code receives `{data: workspace}` — not 401 — and a duplicate
member row is inserted. -/
theorem join_lookup_failure_not_401_cex :
    joinHandler true false stateBob "bob" "w1" "AB12CD" "m9" =
      (Resp.ok wsOne, { stateBob with members := stateBob.members ++ [bobDup] }) ∧
    (joinHandler true false stateBob "bob" "w1" "AB12CD" "m9").1 ≠
      Resp.err 401 "Unauthorized." := by
  decide

/-- Claim C9 amended: `getMember` answers `none` exactly when the
membership query fails — be it for lack of a (unique) matching row or a
backend error — and under a backend failure of the lookup
(`dbErr = true`) every membership-gated handler calling it
(GET /:workspaceId, PATCH, DELETE, resetInviteCode, workspace analytics,
and project analytics once the project row is fetched) answers 401
"Unauthorized.", never surfacing the lookup failure as a 500; the one
caller that does not is POST /:workspaceId/join, which treats the null as
"not a member" and proceeds instead of answering 401. -/
theorem getMember_none_on_any_failure (dbErr : Bool) (s : State) (wid uid : String) :
    (getMember dbErr s wid uid = none ↔
      dbErr = true ∨ single? (memberFor s wid uid) = none) ∧
    (dbErr = true →
      getWorkspaceHandler dbErr s uid wid = Resp.err 401 "Unauthorized." ∧
      (∀ nm img, patchWorkspaceHandler dbErr s uid wid nm img = (Resp.err 401 "Unauthorized.", s)) ∧
      deleteWorkspaceHandler dbErr s uid wid = (Resp.err 401 "Unauthorized.", s) ∧
      (∀ c, resetInviteCodeHandler dbErr s uid wid c = (Resp.err 401 "Unauthorized.", s)) ∧
      (∀ now tS tE lS lE,
        workspaceAnalyticsHandler dbErr s uid wid now tS tE lS lE = Resp.err 401 "Unauthorized.") ∧
      (∀ pid p now tS tE lS lE, single? (projectsFor s pid) = some p →
        projectAnalyticsHandler dbErr s uid pid now tS tE lS lE = Resp.err 401 "Unauthorized.") ∧
      (∀ ie code mid, (joinHandler dbErr ie s uid wid code mid).1 ≠
        Resp.err 401 "Unauthorized.")) := by
  cases dbErr with
  | true =>
    refine ⟨by simp [getMember], fun _ => ⟨?_, ?_, ?_, ?_, ?_, ?_, ?_⟩⟩
    · simp [getWorkspaceHandler, getMember]
    · intro nm img
      simp [patchWorkspaceHandler, getMember]
    · simp [deleteWorkspaceHandler, getMember]
    · intro c
      simp [resetInviteCodeHandler, getMember]
    · intro now tS tE lS lE
      simp [workspaceAnalyticsHandler, getMember]
    · intro pid p now tS tE lS lE hp
      simp [projectAnalyticsHandler, hp, getMember]
    · intro ie code mid
      unfold joinHandler
      have hm : getMember true s wid uid = none := rfl
      rw [hm]
      dsimp only
      cases single? (workspacesFor s wid) with
      | none => simp
      | some w =>
        dsimp only
        cases hb : !(w.invite_code == code) with
        | true => simp [hb]
        | false =>
          cases ie <;> simp [hb]
  | false =>
    refine ⟨by simp [getMember], ?_⟩
    intro hc
    cases hc

/-- Witness for C9 (amended): "owner" IS an admin member of "w1" and the
workspace row exists, yet a backend failure of the membership lookup
makes `GET /workspaces/w1` answer 401 rather than a 500. -/
theorem getMember_none_on_any_failure_w :
    getWorkspaceHandler true baseState "owner" "w1" = Resp.err 401 "Unauthorized." :=
  ((getMember_none_on_any_failure true baseState "w1" "owner").2 rfl).1

/-- Claim C3 (confirmed): a caller with no member row joining with the
workspace's invite code receives `{data: workspace}` and exactly one
member row with role member is appended; and from the resulting state any
further join attempt by the same user for the same workspace — with any
code, any generated id, and whether or not the insert backend would fail —
returns "Already a member." and leaves the store unchanged. -/
theorem join_succeeds_exactly_once (s : State) (uid wid code mid : String) (w : Workspace)
    (hnm : memberFor s wid uid = [])
    (hw : single? (workspacesFor s wid) = some w)
    (hc : w.invite_code = code) :
    joinHandler false false s uid wid code mid =
      (Resp.ok w,
        { s with members := s.members ++
            [{ id := mid, user_id := uid, workspace_id := wid, role := MemberRole.member }] }) ∧
    (∀ code2 mid2 ie,
      joinHandler false ie
        { s with members := s.members ++
            [{ id := mid, user_id := uid, workspace_id := wid, role := MemberRole.member }] }
        uid wid code2 mid2 =
      (Resp.err 400 "Already a member.",
        { s with members := s.members ++
            [{ id := mid, user_id := uid, workspace_id := wid, role := MemberRole.member }] })) := by
  have hm : getMember false s wid uid = none := by
    simp [getMember, hnm, single?]
  constructor
  · simp [joinHandler, hm, hw, hc]
  · intro code2 mid2 ie
    have hm2 : memberFor
        { s with members := s.members ++
          [{ id := mid, user_id := uid, workspace_id := wid, role := MemberRole.member }] }
        wid uid =
        [{ id := mid, user_id := uid, workspace_id := wid, role := MemberRole.member }] := by
      unfold memberFor at hnm ⊢
      simp [List.filter_append, hnm]
    simp [joinHandler, getMember, hm2, single?]

/-- Witness for C3: "alice" joins `wsOne` on `baseState` with the correct
code "AB12CD" and receives the workspace; her member row is appended. -/
theorem join_succeeds_exactly_once_w :
    joinHandler false false baseState "alice" "w1" "AB12CD" "m9" =
      (Resp.ok wsOne, { baseState with members := baseState.members ++ [aliceMember] }) :=
  (join_succeeds_exactly_once baseState "alice" "w1" "AB12CD" "m9" wsOne
    (by decide) (by decide) (by decide)).1

/-- Claim C4 (confirmed): whenever the submitted code differs from the
invite code of the (uniquely fetched) workspace, POST /:workspaceId/join
returns an error and the store is unchanged — in particular no member row
is inserted, for every caller and every injected backend outcome. -/
theorem join_wrong_code_no_member_insert (dbErr ie : Bool) (s : State)
    (uid wid code mid : String) (w : Workspace)
    (hw : single? (workspacesFor s wid) = some w)
    (hc : w.invite_code ≠ code) :
    (joinHandler dbErr ie s uid wid code mid).1.isErr = true ∧
    (joinHandler dbErr ie s uid wid code mid).2 = s := by
  unfold joinHandler
  cases getMember dbErr s wid uid with
  | some m => exact ⟨rfl, rfl⟩
  | none =>
    dsimp only
    rw [hw]
    have hb : (w.invite_code == code) = false := by
      simp [hc]
    simp [hb, Resp.isErr]

/-- Witness for C4: "alice" submits the wrong code "WRONG" for `wsOne`;
the response is an error and `baseState` is unchanged (no member row). -/
theorem join_wrong_code_no_member_insert_w :
    (joinHandler false false baseState "alice" "w1" "WRONG" "m9").2 = baseState :=
  (join_wrong_code_no_member_insert false false baseState "alice" "w1" "WRONG" "m9" wsOne
    (by decide) (by decide)).2

/-- Claim C8 (confirmed): in POST /workspaces/, when the workspace insert
succeeds but the member insert fails, the handler returns a 500 error and
the new state keeps the already-inserted workspace row while the members
table is untouched — no rollback, the row is orphaned. -/
theorem create_workspace_orphan_on_member_insert_failure (s : State) (uid nm : String)
    (img : Option String) (wsId inv mid : String) :
    createWorkspaceHandler false true s uid nm img wsId inv mid =
      (Resp.err 500 "member insert failed",
        { s with workspaces := s.workspaces ++
            [{ id := wsId, name := nm, user_id := uid, image_id := img, invite_code := inv }] }) :=
  rfl

/-- The per-row effect of the invite-code reset update: rows matching the
targeted id get the fresh code, all other rows are untouched. -/
def resetRow (wid newCode : String) (w : Workspace) : Workspace :=
  if w.id == wid then { w with invite_code := newCode } else w

/-- `wsOne` after its invite code has been reset to "ZZ99XX". -/
def wsOneReset : Workspace := { wsOne with invite_code := "ZZ99XX" }

/-- `baseState` after the invite-code reset of `wsOne`. -/
def baseStateReset : State := { baseState with workspaces := [wsOneReset] }

/-- Claim C10 (confirmed): a successful POST /:workspaceId/resetInviteCode
leaves members, projects and tasks untouched, keeps the workspace table's
length, preserves id, name, user_id and image_id of every workspace row,
and leaves every row whose id is not the targeted one entirely unchanged —
only the targeted row's invite_code is written. -/
theorem reset_invite_code_frame (s : State) (uid wid newCode : String)
    (w : Workspace) (s2 : State)
    (h : resetInviteCodeHandler false s uid wid newCode = (Resp.ok w, s2)) :
    s2.members = s.members ∧ s2.projects = s.projects ∧ s2.tasks = s.tasks ∧
    s2.workspaces.length = s.workspaces.length ∧
    (∀ i (hi : i < s.workspaces.length) (hi2 : i < s2.workspaces.length),
      (s2.workspaces.get ⟨i, hi2⟩).id = (s.workspaces.get ⟨i, hi⟩).id ∧
      (s2.workspaces.get ⟨i, hi2⟩).name = (s.workspaces.get ⟨i, hi⟩).name ∧
      (s2.workspaces.get ⟨i, hi2⟩).user_id = (s.workspaces.get ⟨i, hi⟩).user_id ∧
      (s2.workspaces.get ⟨i, hi2⟩).image_id = (s.workspaces.get ⟨i, hi⟩).image_id ∧
      ((s.workspaces.get ⟨i, hi⟩).id ≠ wid →
        s2.workspaces.get ⟨i, hi2⟩ = s.workspaces.get ⟨i, hi⟩)) := by
  have hs2 : s2 = { s with workspaces := s.workspaces.map (resetRow wid newCode) } := by
    unfold resetInviteCodeHandler at h
    split at h
    · simp at h
    · split at h
      · dsimp only at h
        split at h
        · simp at h
        · rw [Prod.mk.injEq] at h
          exact h.2.symm
      · simp at h
  subst hs2
  refine ⟨rfl, rfl, rfl, by simp, ?_⟩
  intro i hi hi2
  simp only [List.get_eq_getElem, List.getElem_map]
  by_cases hid : (s.workspaces[i].id == wid) = true
  · refine ⟨by simp [resetRow, hid], by simp [resetRow, hid], by simp [resetRow, hid],
      by simp [resetRow, hid], ?_⟩
    intro hne
    exact absurd (by simpa using hid) hne
  · refine ⟨by simp [resetRow, hid], by simp [resetRow, hid], by simp [resetRow, hid],
      by simp [resetRow, hid], fun _ => by simp [resetRow, hid]⟩

/-- Witness for C10: resetting `wsOne`'s code to "ZZ99XX" on `baseState`
succeeds, keeps the members list and the workspace count. -/
theorem reset_invite_code_frame_w :
    baseStateReset.members = baseState.members ∧
      baseStateReset.workspaces.length = baseState.workspaces.length :=
  ⟨(reset_invite_code_frame baseState "owner" "w1" "ZZ99XX" wsOneReset baseStateReset
      (by decide)).1,
   (reset_invite_code_frame baseState "owner" "w1" "ZZ99XX" wsOneReset baseStateReset
      (by decide)).2.2.2.1⟩

end JiraClone
